import Mathlib

/-!
Shallow embedding of the CHIP-8 execution core of `src/main.rs`.

The Rust program is a single `struct CPU` with a `run` loop (fetch two bytes,
combine them big-endian, pre-advance the program counter by 2, dispatch on the
opcode) and one method per instruction family.  Machine bytes and words are
modelled as `Nat` with explicit `% 256` / `% 65536` where wraparound occurs.

The Rust code has no error-return channel: `run` returns unit on opcode
`0x0000` and otherwise every failure is a `panic!` / `todo!` / out-of-bounds
index panic, which aborts the process.  Such aborts are modelled by the
`Outcome.panic` constructor, which records which panic fired and the CPU state
at the moment of the abort.  The default (debug) build profile is embedded:
`u8 += u8` is overflow-checked and panics on overflow (`Panic.addOverflow`),
while `u8.overflowing_add` wraps and reports the carry.
-/

namespace Chip8

/-- Pointwise function update, used to model in-place writes into the
fixed-size arrays of the CPU (`registers`, `stack`, and the byte `memory`). -/
def updFn {α β : Type} [DecidableEq α] (f : α → β) (i : α) (v : β) : α → β :=
  fun j => if j = i then v else f j

theorem updFn_same {α β : Type} [DecidableEq α] (f : α → β) (i : α) (v : β) :
    updFn f i v i = v := by
  simp [updFn]

theorem updFn_other {α β : Type} [DecidableEq α] (f : α → β) (i : α) (v : β)
    (j : α) (h : j ≠ i) : updFn f i v j = f j := by
  simp [updFn, h]

/-- CPU state, mirroring `struct CPU` in `src/main.rs`:
16 8-bit registers, a program counter (`usize`), 4096 bytes of memory,
a 16-slot stack of 16-bit return addresses, and a stack pointer (`usize`).
Register and memory cells are `Nat`s holding values in `[0,255]`; stack slots
hold values in `[0,65535]`. -/
structure CPU where
  registers : Fin 16 → Nat
  program_counter : Nat
  memory : Nat → Nat
  stack : Fin 16 → Nat
  stack_pointer : Nat

/-- The panics the Rust program can hit: an out-of-bounds array index
(`memory[p]` past 4095, `stack[sp]` past 15), the two explicit
`panic!("Stack underflow!")` / `panic!("Stack overflow!")` calls, the
debug-profile overflow check of `+=` in `add`, and the `todo!` arms of the
dispatch match (unimplemented opcode). -/
inductive Panic where
  | indexOutOfBounds
  | stackUnderflow
  | stackOverflow
  | addOverflow
  | unimplemented (opcode : Nat)

/-- Result of one iteration of the `run` loop body: continue looping,
return normally (opcode `0x0000`), or abort the process with a panic
(carrying the CPU state at the moment of the abort). -/
inductive Outcome where
  | ok : CPU → Outcome
  | halt : CPU → Outcome
  | panic : Panic → CPU → Outcome

/-- The CPU state carried by an outcome. -/
def Outcome.cpu : Outcome → CPU
  | .ok s => s
  | .halt s => s
  | .panic _ s => s

/-- True exactly for the looping (non-halt, non-panic) outcome. -/
def Outcome.isOk : Outcome → Bool
  | .ok _ => true
  | _ => false

/-- True exactly for the normal-return (halt) outcome. -/
def Outcome.isHalt : Outcome → Bool
  | .halt _ => true
  | _ => false

/-- True exactly for an `Outcome.panic` on a `todo!` (unimplemented opcode). -/
def Outcome.isUnimplemented : Outcome → Bool
  | .panic (.unimplemented _) _ => true
  | _ => false

/-- Field `x` of an opcode: `((opcode & 0x0F00) >> 8) as u8`, a register
index in `0..=15`. -/
def xOf (op : Nat) : Fin 16 :=
  ⟨(op &&& 0x0F00) >>> 8, by
    have h : op &&& 0x0F00 ≤ 0x0F00 := Nat.and_le_right
    rw [Nat.shiftRight_eq_div_pow]
    omega⟩

/-- Field `y` of an opcode: `((opcode & 0x00F0) >> 4) as u8`, a register
index in `0..=15`. -/
def yOf (op : Nat) : Fin 16 :=
  ⟨(op &&& 0x00F0) >>> 4, by
    have h : op &&& 0x00F0 ≤ 0x00F0 := Nat.and_le_right
    rw [Nat.shiftRight_eq_div_pow]
    omega⟩

/-- Handler `ret` (opcode 00EE): return from the current sub-routine.
`stack_pointer == 0` hits `panic!("Stack underflow!")`; otherwise the stack
pointer is decremented first and `stack[stack_pointer]` is then read into the
program counter (the read is bounds-checked: index past 15 would panic). -/
def ret (s : CPU) : Outcome :=
  if s.stack_pointer = 0 then .panic .stackUnderflow s
  else if h : s.stack_pointer - 1 < 16 then
    .ok { s with stack_pointer := s.stack_pointer - 1,
                 program_counter := s.stack ⟨s.stack_pointer - 1, h⟩ }
  else .panic .indexOutOfBounds { s with stack_pointer := s.stack_pointer - 1 }

/-- Handler `jump` (opcode 1nnn): jump to address `nnn`. -/
def jump (addr : Nat) (s : CPU) : CPU :=
  { s with program_counter := addr }

/-- Handler `call` (opcode 2nnn): call the sub-routine at `addr`.  The guard in the
source is `if stack_ptr > stack.len()`, i.e. `stack_pointer > 16`; only then
does `panic!("Stack overflow!")` fire.  At `stack_pointer == 16` the guard
passes and the write `stack[stack_pointer]` is an out-of-bounds index panic.
The pushed return address is `program_counter as u16`, i.e. `% 65536`. -/
def call (addr : Nat) (s : CPU) : Outcome :=
  if s.stack_pointer > 16 then .panic .stackOverflow s
  else if h : s.stack_pointer < 16 then
    .ok { s with
          stack := updFn s.stack ⟨s.stack_pointer, h⟩ (s.program_counter % 65536),
          stack_pointer := s.stack_pointer + 1,
          program_counter := addr }
  else .panic .indexOutOfBounds s

/-- Handler `se_xkk` (opcode 3xkk): skip (a further `+ 2`) if `registers[x] == kk`. -/
def se_xkk (x : Fin 16) (kk : Nat) (s : CPU) : CPU :=
  if s.registers x = kk then { s with program_counter := s.program_counter + 2 }
  else s

/-- Handler `sne` (opcode 4xkk): skip if `vx != kk`; the dispatcher passes the register
value `registers[x]` for `vx`. -/
def sne (vx kk : Nat) (s : CPU) : CPU :=
  if vx ≠ kk then { s with program_counter := s.program_counter + 2 }
  else s

/-- Handler `se_xy` (opcode family 5xy_): skip if `registers[x] == registers[y]`. -/
def se_xy (x y : Fin 16) (s : CPU) : CPU :=
  if s.registers x = s.registers y then
    { s with program_counter := s.program_counter + 2 }
  else s

/-- Handler `set` (opcode 6xkk): `registers[x] := kk`. -/
def set (x : Fin 16) (kk : Nat) (s : CPU) : CPU :=
  { s with registers := updFn s.registers x kk }

/-- Handler `add` (opcode 7xkk): `registers[vx] += kk`.  The source uses plain `+=`
on `u8`, which under the default (debug) profile is overflow-checked: if the
true sum exceeds 255 the program panics with "attempt to add with overflow";
otherwise the sum is stored and no other register (in particular VF) is
touched. -/
def add (vx : Fin 16) (kk : Nat) (s : CPU) : Outcome :=
  if 255 < s.registers vx + kk then .panic .addOverflow s
  else .ok { s with registers := updFn s.registers vx (s.registers vx + kk) }

/-- Handler `and_xy` (opcode 8xy2): `registers[x] := vx & vy`. -/
def and_xy (x y : Fin 16) (s : CPU) : CPU :=
  { s with registers := updFn s.registers x (s.registers x &&& s.registers y) }

/-- Handler `or_xy` (opcode 8xy1): `registers[x] := vx | vy`. -/
def or_xy (x y : Fin 16) (s : CPU) : CPU :=
  { s with registers := updFn s.registers x (s.registers x ||| s.registers y) }

/-- Handler `xor_xy` (opcode 8xy3): `registers[x] := vx ^ vy`. -/
def xor_xy (x y : Fin 16) (s : CPU) : CPU :=
  { s with registers := updFn s.registers x (s.registers x ^^^ s.registers y) }

/-- Handler `add_xy` (opcode 8xy4): `overflowing_add` of `vx` and `vy`; the wrapped
sum is stored in `registers[x]` first, and then `registers[0xF]` is written
with 1 on carry, 0 otherwise (so for `x = 0xF` the flag write lands last). -/
def add_xy (x y : Fin 16) (s : CPU) : CPU :=
  { s with registers :=
      (updFn (updFn s.registers x ((s.registers x + s.registers y) % 256))
        (15 : Fin 16)
        (if 255 < s.registers x + s.registers y then 1 else 0)) }

/-- Dispatch of the already-fetched 16-bit opcode, mirroring the `match` in
`run`.  `s` is the state after the `program_counter += 2` pre-advance.  The
field extractions `x`, `y`, `kk`, `op_minor`, `addr` are inlined at their use
sites.  The two `todo!` arms are the unimplemented-opcode panics. -/
def decodeExec (opcode : Nat) (s : CPU) : Outcome :=
  if opcode = 0x0000 then .halt s
  else if opcode = 0x00E0 then .ok s
  else if opcode = 0x00EE then ret s
  else if 0x1000 ≤ opcode ∧ opcode ≤ 0x1FFF then .ok (jump (opcode &&& 0x0FFF) s)
  else if 0x2000 ≤ opcode ∧ opcode ≤ 0x2FFF then call (opcode &&& 0x0FFF) s
  else if 0x3000 ≤ opcode ∧ opcode ≤ 0x3FFF then
    .ok (se_xkk (xOf opcode) (opcode &&& 0x00FF) s)
  else if 0x4000 ≤ opcode ∧ opcode ≤ 0x4FFF then
    .ok (sne (s.registers (xOf opcode)) (opcode &&& 0x00FF) s)
  else if 0x5000 ≤ opcode ∧ opcode ≤ 0x5FFF then
    .ok (se_xy (xOf opcode) (yOf opcode) s)
  else if 0x6000 ≤ opcode ∧ opcode ≤ 0x6FFF then
    .ok (set (xOf opcode) (opcode &&& 0x00FF) s)
  else if 0x7000 ≤ opcode ∧ opcode ≤ 0x7FFF then
    add (xOf opcode) (opcode &&& 0x00FF) s
  else if 0x8000 ≤ opcode ∧ opcode ≤ 0x8FFF then
    if opcode &&& 0x000F = 0 then .ok (set (xOf opcode) (s.registers (yOf opcode)) s)
    else if opcode &&& 0x000F = 1 then .ok (or_xy (xOf opcode) (yOf opcode) s)
    else if opcode &&& 0x000F = 2 then .ok (and_xy (xOf opcode) (yOf opcode) s)
    else if opcode &&& 0x000F = 3 then .ok (xor_xy (xOf opcode) (yOf opcode) s)
    else if opcode &&& 0x000F = 4 then .ok (add_xy (xOf opcode) (yOf opcode) s)
    else .panic (.unimplemented opcode) s
  else .panic (.unimplemented opcode) s

/-- The big-endian fetch at the current program counter:
`(memory[p] as u16) << 8 | (memory[p+1] as u16)`. -/
def opcodeAt (s : CPU) : Nat :=
  (s.memory s.program_counter) <<< 8 ||| s.memory (s.program_counter + 1)

/-- One iteration of the `run` loop body: the two byte reads at `p` and
`p + 1` are bounds-checked against the 4096-byte memory (an index past 4095
is an out-of-bounds panic, with no state mutated yet; `p + 1 < 4096` covers
both reads); then the program counter is pre-advanced by 2 and the opcode is
dispatched. -/
def step (s : CPU) : Outcome :=
  if s.program_counter + 1 < 4096 then
    decodeExec (opcodeAt s) { s with program_counter := s.program_counter + 2 }
  else .panic .indexOutOfBounds s

/-- Two consecutive iterations of the `run` loop body (a halt or a panic in
the first iteration is final). -/
def step2 (s : CPU) : Outcome :=
  match step s with
  | .ok s1 => step s1
  | o => o

/-- Terminal observation of the `run` loop, with explicit fuel: the Rust loop
has no iteration bound, so `run fuel s = .halted _` certifies actual
termination via opcode `0x0000`, and `.panicked _ _` certifies an abort;
`.timeout _` only means the fuel ran out. -/
inductive RunResult where
  | halted : CPU → RunResult
  | panicked : Panic → CPU → RunResult
  | timeout : CPU → RunResult

/-- The fuelled `run` loop. -/
def run : Nat → CPU → RunResult
  | 0, s => .timeout s
  | fuel + 1, s =>
    match step s with
    | .ok s1 => run fuel s1
    | .halt s1 => .halted s1
    | .panic p s1 => .panicked p s1

/-- True exactly for a normal termination of `run` (opcode `0x0000`). -/
def RunResult.isHalted : RunResult → Bool
  | .halted _ => true
  | _ => false

/-- The register file carried by a run result. -/
def RunResult.registersOf : RunResult → (Fin 16 → Nat)
  | .halted s => s.registers
  | .panicked _ s => s.registers
  | .timeout s => s.registers

/-- The all-zero register file (`[0; 16]`). -/
def zeroRegs : Fin 16 → Nat := fun _ => 0

/-- The all-zero memory (`[0; 4096]`). -/
def zeroMem : Nat → Nat := fun _ => 0

/-- The all-zero stack (`[0; 16]`). -/
def zeroStack : Fin 16 → Nat := fun _ => 0

/-- The freshly initialized CPU of `main`: everything zeroed. -/
def initCPU : CPU :=
  { registers := zeroRegs
    program_counter := 0
    memory := zeroMem
    stack := zeroStack
    stack_pointer := 0 }

/-- The program image written by `main`: `Call(0x100)` at 0x000 and 0x002,
`Halt` at 0x004, and the sub-routine `AddRegisters(0,1); AddRegisters(0,1);
Return` at 0x100. -/
def mainMemory : Nat → Nat :=
  let m := zeroMem
  let m := updFn m 0x000 0x21
  let m := updFn m 0x001 0x00
  let m := updFn m 0x002 0x21
  let m := updFn m 0x003 0x00
  let m := updFn m 0x004 0x00
  let m := updFn m 0x005 0x00
  let m := updFn m 0x100 0x80
  let m := updFn m 0x101 0x14
  let m := updFn m 0x102 0x80
  let m := updFn m 0x103 0x14
  let m := updFn m 0x104 0x00
  let m := updFn m 0x105 0xEE
  m

/-- The CPU as `main` configures it before `cpu.run()`:
`registers[0] = 5`, `registers[1] = 10`, the program image above, and
`program_counter = 0`. -/
def mainCPU : CPU :=
  { initCPU with
    registers := updFn (updFn zeroRegs 0 5) 1 10
    memory := mainMemory }

/-- The dispatch table of the specification (section 4.2): the set of opcodes
the spec lists as recognized.  Modelled from the spec, for comparison with the
dispatch implemented by `decodeExec` (which differs on the `0x5xyn` family). -/
def SpecRecognized (op : Nat) : Prop :=
  op = 0x0000 ∨ op = 0x00E0 ∨ op = 0x00EE ∨
  (0x1000 ≤ op ∧ op ≤ 0x1FFF) ∨
  (0x2000 ≤ op ∧ op ≤ 0x2FFF) ∨
  (0x3000 ≤ op ∧ op ≤ 0x3FFF) ∨
  (0x4000 ≤ op ∧ op ≤ 0x4FFF) ∨
  (0x5000 ≤ op ∧ op ≤ 0x5FFF ∧ op &&& 0x000F = 0) ∨
  (0x6000 ≤ op ∧ op ≤ 0x6FFF) ∨
  (0x7000 ≤ op ∧ op ≤ 0x7FFF) ∨
  (0x8000 ≤ op ∧ op ≤ 0x8FFF ∧ op &&& 0x000F ≤ 4)

instance (op : Nat) : Decidable (SpecRecognized op) := by
  unfold SpecRecognized
  infer_instance

end Chip8

namespace Chip8

/-! ### Helper lemmas on the fetch and dispatch branches -/

theorem step_fetch (s : CPU) (h : s.program_counter + 1 < 4096) :
    step s = decodeExec (opcodeAt s) { s with program_counter := s.program_counter + 2 } := by
  unfold step
  rw [if_pos h]

theorem step_fetch_oob (s : CPU) (h : ¬ s.program_counter + 1 < 4096) :
    step s = .panic .indexOutOfBounds s := by
  unfold step
  rw [if_neg h]

theorem decode_ret (op : Nat) (s : CPU) (h : op = 0x00EE) :
    decodeExec op s = ret s := by
  subst h
  rfl

theorem decode_call (op : Nat) (s : CPU) (h1 : 0x2000 ≤ op) (h2 : op ≤ 0x2FFF) :
    decodeExec op s = call (op &&& 0x0FFF) s := by
  unfold decodeExec
  repeat rw [if_neg (by omega)]
  rw [if_pos (by omega)]

theorem decode_se_xkk (op : Nat) (s : CPU) (h1 : 0x3000 ≤ op) (h2 : op ≤ 0x3FFF) :
    decodeExec op s = .ok (se_xkk (xOf op) (op &&& 0x00FF) s) := by
  unfold decodeExec
  repeat rw [if_neg (by omega)]
  rw [if_pos (by omega)]

theorem decode_sne (op : Nat) (s : CPU) (h1 : 0x4000 ≤ op) (h2 : op ≤ 0x4FFF) :
    decodeExec op s = .ok (sne (s.registers (xOf op)) (op &&& 0x00FF) s) := by
  unfold decodeExec
  repeat rw [if_neg (by omega)]
  rw [if_pos (by omega)]

theorem decode_se_xy (op : Nat) (s : CPU) (h1 : 0x5000 ≤ op) (h2 : op ≤ 0x5FFF) :
    decodeExec op s = .ok (se_xy (xOf op) (yOf op) s) := by
  unfold decodeExec
  repeat rw [if_neg (by omega)]
  rw [if_pos (by omega)]

end Chip8

namespace Chip8

/-! ### Concrete driver-seeded states used as counterexamples and witnesses -/

/-- Registers `r15 = 5`, `r0 = 3`, everything else zero. -/
def cexC1 : CPU := { initCPU with registers := updFn (updFn zeroRegs 15 5) 0 3 }

/-- Registers `r3 = 200`, `r4 = 100` (the spec section 8 example). -/
def witC1 : CPU := { initCPU with registers := updFn (updFn zeroRegs 3 200) 4 100 }

/-- Register `r0 = 200`. -/
def cexC2 : CPU := { initCPU with registers := updFn zeroRegs 0 200 }

/-- Opcode `0x00EE` (Return) at address 0, empty stack. -/
def cexRetUnderflow : CPU :=
  { initCPU with memory := updFn (updFn zeroMem 0 0x00) 1 0xEE }

/-- Opcode `0x2100` (Call 0x100) at address 0, full stack
(`stack_pointer = 16`). -/
def cexCallOverflow : CPU :=
  { initCPU with memory := updFn (updFn zeroMem 0 0x21) 1 0x00,
                 stack_pointer := 16 }

/-- Program counter 5000: both fetch reads are past the 4096-byte bound. -/
def cexC5 : CPU := { initCPU with program_counter := 5000 }

/-- Program counter 4095: `memory[p]` is in bounds, `memory[p+1]` is not. -/
def witC5 : CPU := { initCPU with program_counter := 4095 }

/-- Claim C1, counterexample: with `x = 0xF`, `y = 0`, `a = 5`, `b = 3`,
`AddRegisters(0xF, 0)` leaves `registers[x] = 0` (the carry-flag write lands
after the sum write and overwrites it), not `(5 + 3) mod 256 = 8` as the
claim requires for all register indices `x`. -/
theorem c1_counterexample :
    cexC1.registers 15 = 5 ∧ cexC1.registers 0 = 3 ∧
    (add_xy 15 0 cexC1).registers 15 ≠ (5 + 3) % 256 := by
  decide

/-- Claim C1, amended: for all `x`, `y` and `a, b` in `[0,255]`, after
`registers[x] = a; registers[y] = b; AddRegisters(x,y)`, register `0xF` holds
1 if `a + b > 255` and 0 otherwise (written on every execution), and whenever
`x ≠ 0xF` also `registers[x] = (a + b) mod 256` (for `x = 0xF` the flag write
is last and wins). -/
theorem c1_add_registers_amended (x y : Fin 16) (s : CPU) (a b : Nat)
    (ha : a ≤ 255) (hb : b ≤ 255)
    (hx : s.registers x = a) (hy : s.registers y = b) :
    (add_xy x y s).registers 15 = (if 255 < a + b then 1 else 0) ∧
    (x ≠ 15 → (add_xy x y s).registers x = (a + b) % 256) := by
  constructor
  · show (updFn (updFn s.registers x ((s.registers x + s.registers y) % 256))
        (15 : Fin 16)
        (if 255 < s.registers x + s.registers y then 1 else 0)) 15 = _
    rw [updFn_same, hx, hy]
  · intro hne
    show (updFn (updFn s.registers x ((s.registers x + s.registers y) % 256))
        (15 : Fin 16)
        (if 255 < s.registers x + s.registers y then 1 else 0)) x = _
    rw [updFn_other _ _ _ _ hne, updFn_same, hx, hy]

/-- Claim C1, witness: at `x = 3`, `y = 4`, `a = 200`, `b = 100` the amended
theorem yields `registers[0xF] = 1` and `registers[3] = 44`. -/
theorem c1_add_registers_witness :
    (add_xy 3 4 witC1).registers 15 = 1 ∧ (add_xy 3 4 witC1).registers 3 = 44 := by
  have h := c1_add_registers_amended 3 4 witC1 200 100 (by decide) (by decide) rfl rfl
  exact ⟨h.1.trans (by decide), (h.2 (by decide)).trans (by decide)⟩

/-- Claim C2 (code bug): `AddImmediate` is `registers[vx] += kk` with plain
(overflow-checked) `u8` addition, so at `registers[x] = 200`, `kk = 100` the
debug-profile program panics with "attempt to add with overflow" instead of
wrapping to 44 without a fault as the claim (and spec sections 4.3 and 9)
require. -/
theorem c2_add_immediate_overflow_panics :
    cexC2.registers 0 = 200 ∧ add 0 100 cexC2 = .panic .addOverflow cexC2 :=
  ⟨rfl, rfl⟩

/-- Claim C3 (code bug): `Return` with `stack_pointer = 0` does raise the
stack-underflow panic as claimed, but `Call` with `stack_pointer = 16` does
not raise the stack-overflow panic: the guard in `call` tests
`stack_pointer > 16`, so at 16 it passes and the write `stack[16]` aborts
with an index out-of-bounds panic instead. -/
theorem c3_underflow_hits_overflow_misfires :
    step cexRetUnderflow =
      .panic .stackUnderflow { cexRetUnderflow with program_counter := 2 } ∧
    step cexCallOverflow =
      .panic .indexOutOfBounds { cexCallOverflow with program_counter := 2 } ∧
    step cexCallOverflow ≠
      .panic .stackOverflow { cexCallOverflow with program_counter := 2 } := by
  refine ⟨rfl, rfl, fun h => ?_⟩
  injection h with h1 h2
  exact Panic.noConfusion h1

/-- Claim C5, counterexample: at `program_counter = 5000` (so `p + 1` exceeds
4095) the fetch aborts the process with the out-of-bounds index panic — the
run ends in `RunResult.panicked`, which models a Rust panic (process abort);
no `Faulted`-style error value is ever returned to the driver (the source
`run` returns unit), refuting the claim's "reported to the driver as a
Faulted state, rather than an uncatchable abort". -/
theorem c5_counterexample :
    step cexC5 = .panic .indexOutOfBounds cexC5 ∧
    run 3 cexC5 = .panicked .indexOutOfBounds cexC5 :=
  ⟨rfl, rfl⟩

/-- Claim C5, amended: for every state whose `program_counter = p` has
`p + 1 > 4095`, the fetch terminates execution fatally with the out-of-bounds
index panic (a process abort, with no state mutated), rather than returning
an explicit error value to the driver. -/
theorem c5_fetch_oob_amended (s : CPU) (h : 4095 < s.program_counter + 1) :
    step s = .panic .indexOutOfBounds s :=
  step_fetch_oob s (by omega)

/-- Claim C5, witness: the amended theorem at `program_counter = 4095`
(the first byte is in bounds, the second is not). -/
theorem c5_fetch_oob_witness : step witC5 = .panic .indexOutOfBounds witC5 :=
  c5_fetch_oob_amended witC5 (by decide)

end Chip8

namespace Chip8

theorem decode_unimpl (op : Nat) (s : CPU)
    (hrec : ¬ SpecRecognized op) (h5 : ¬(0x5000 ≤ op ∧ op ≤ 0x5FFF)) :
    decodeExec op s = .panic (.unimplemented op) s := by
  unfold SpecRecognized at hrec
  simp only [not_or] at hrec
  obtain ⟨h0, hE0, hEE, hj, hc2, h3, h4, h5p, h6, h7, h8⟩ := hrec
  unfold decodeExec
  repeat rw [if_neg (by omega)]
  by_cases h8r : 0x8000 ≤ op ∧ op ≤ 0x8FFF
  · rw [if_pos h8r]
    have hm : ¬(op &&& 0x000F ≤ 4) := fun hle => h8 ⟨h8r.1, h8r.2, hle⟩
    repeat rw [if_neg (by omega)]
  · rw [if_neg h8r]

/-- Opcode `0x3007` (SkipEqualImmediate x=0 kk=7) at address 0, `r0 = 7`. -/
def witC4 : CPU :=
  { initCPU with memory := updFn (updFn zeroMem 0 0x30) 1 0x07,
                 registers := updFn zeroRegs 0 7 }

/-- Opcode `0x5011` (low nibble 1) at address 0, all registers zero. -/
def cexC6 : CPU := { initCPU with memory := updFn (updFn zeroMem 0 0x50) 1 0x11 }

/-- Opcode `0x5121` (low nibble 1) at address 0, all registers zero. -/
def witC6 : CPU := { initCPU with memory := updFn (updFn zeroMem 0 0x51) 1 0x21 }

/-- Opcode `0x5231` (low nibble 1) at address 0, all registers zero. -/
def cexC7 : CPU := { initCPU with memory := updFn (updFn zeroMem 0 0x52) 1 0x31 }

/-- Opcode `0xD000` (draw sprite) at address 0. -/
def witC7 : CPU := { initCPU with memory := updFn (updFn zeroMem 0 0xD0) 1 0x00 }

/-- Claim C4: in a state whose fetched opcode `opcodeAt s` (the big-endian
combination `memory[p] << 8 | memory[p+1]`) is a skip instruction — `0x3xkk`,
`0x4xkk`, or `0x5xy0` — and whose fetch is in bounds, a single step loops
(`isOk`) and ends with `program_counter = p + 4` exactly when the skip
condition holds and `p + 2` otherwise (the fetch pre-advance contributes the
`+ 2`, the skip the second `+ 2`). -/
theorem c4_skip_step (s : CPU)
    (hpc : s.program_counter + 1 < 4096)
    (h1 : 0x3000 ≤ opcodeAt s) (h2 : opcodeAt s ≤ 0x5FFF)
    (h5 : 0x5000 ≤ opcodeAt s → opcodeAt s &&& 0x000F = 0) :
    (step s).isOk = true ∧
    (step s).cpu.program_counter =
      (if opcodeAt s ≤ 0x3FFF then
        (if s.registers (xOf (opcodeAt s)) = opcodeAt s &&& 0x00FF
         then s.program_counter + 4 else s.program_counter + 2)
      else if opcodeAt s ≤ 0x4FFF then
        (if s.registers (xOf (opcodeAt s)) = opcodeAt s &&& 0x00FF
         then s.program_counter + 2 else s.program_counter + 4)
      else
        (if s.registers (xOf (opcodeAt s)) = s.registers (yOf (opcodeAt s))
         then s.program_counter + 4 else s.program_counter + 2)) := by
  have hfetch := step_fetch s hpc
  by_cases h3 : opcodeAt s ≤ 0x3FFF
  · rw [hfetch, decode_se_xkk _ _ h1 h3]
    refine ⟨rfl, ?_⟩
    rw [if_pos h3]
    unfold se_xkk
    dsimp only
    by_cases hc : s.registers (xOf (opcodeAt s)) = opcodeAt s &&& 0x00FF
    · rw [if_pos hc, if_pos hc]
      dsimp only [Outcome.cpu]
    · rw [if_neg hc, if_neg hc]
      dsimp only [Outcome.cpu]
  · by_cases h4 : opcodeAt s ≤ 0x4FFF
    · rw [hfetch, decode_sne _ _ (by omega) h4]
      refine ⟨rfl, ?_⟩
      rw [if_neg h3, if_pos h4]
      unfold sne
      dsimp only
      by_cases hc : s.registers (xOf (opcodeAt s)) = opcodeAt s &&& 0x00FF
      · rw [if_neg (not_not_intro hc), if_pos hc]
        dsimp only [Outcome.cpu]
      · rw [if_pos hc, if_neg hc]
        dsimp only [Outcome.cpu]
    · rw [hfetch, decode_se_xy _ _ (by omega) h2]
      refine ⟨rfl, ?_⟩
      rw [if_neg h3, if_neg h4]
      unfold se_xy
      dsimp only
      by_cases hc : s.registers (xOf (opcodeAt s)) = s.registers (yOf (opcodeAt s))
      · rw [if_pos hc, if_pos hc]
        dsimp only [Outcome.cpu]
      · rw [if_neg hc, if_neg hc]
        dsimp only [Outcome.cpu]

/-- Claim C4, witness: opcode `0x3007` with `r0 = 7` ends the step at
`program_counter = 4` (condition holds, 2 for fetch + 2 for skip). -/
theorem c4_skip_step_witness :
    (step witC4).isOk = true ∧ (step witC4).cpu.program_counter = 4 := by
  have h := c4_skip_step witC4 (by decide) (by decide) (by decide) (by decide)
  exact ⟨h.1, h.2.trans (by decide)⟩

/-- Claim C6, counterexample: opcode `0x5011` has low nibble 1, yet dispatch
executes it as SkipEqualRegisters — the step loops normally (pc 0 to 4, both
registers being zero) and is not an UnimplementedOpcode panic. -/
theorem c6_counterexample :
    (step cexC6).isUnimplemented = false ∧
    step cexC6 = .ok { cexC6 with program_counter := 4 } :=
  ⟨rfl, rfl⟩

/-- Claim C6, amended: every opcode in `0x5000..=0x5FFF`, for any low nibble,
dispatches to SkipEqualRegisters (skip if `registers[x] == registers[y]`);
none of them yields UnimplementedOpcode. -/
theorem c6_five_family_amended (s : CPU)
    (hpc : s.program_counter + 1 < 4096)
    (h1 : 0x5000 ≤ opcodeAt s) (h2 : opcodeAt s ≤ 0x5FFF) :
    (step s).isOk = true ∧ (step s).isUnimplemented = false ∧
    (step s).cpu.program_counter =
      (if s.registers (xOf (opcodeAt s)) = s.registers (yOf (opcodeAt s))
       then s.program_counter + 4 else s.program_counter + 2) := by
  rw [step_fetch s hpc, decode_se_xy _ _ h1 h2]
  refine ⟨rfl, rfl, ?_⟩
  unfold se_xy
  dsimp only
  by_cases hc : s.registers (xOf (opcodeAt s)) = s.registers (yOf (opcodeAt s))
  · rw [if_pos hc, if_pos hc]
    dsimp only [Outcome.cpu]
  · rw [if_neg hc, if_neg hc]
    dsimp only [Outcome.cpu]

/-- Claim C6, witness: opcode `0x5121` (low nibble 1) with equal registers
skips to `program_counter = 4` and is not an UnimplementedOpcode panic. -/
theorem c6_five_family_witness :
    (step witC6).isOk = true ∧ (step witC6).isUnimplemented = false ∧
    (step witC6).cpu.program_counter = 4 := by
  have h := c6_five_family_amended witC6 (by decide) (by decide) (by decide)
  exact ⟨h.1, h.2.1, h.2.2.trans (by decide)⟩

/-- Claim C7, counterexample: opcode `0x5231` is outside the specification's
recognized set (its `0x5xy0` pattern requires low nibble 0), yet a step on it
does not yield UnimplementedOpcode: it executes as SkipEqualRegisters and
loops normally. -/
theorem c7_counterexample :
    ¬ SpecRecognized 0x5231 ∧ opcodeAt cexC7 = 0x5231 ∧
    (step cexC7).isUnimplemented = false ∧
    step cexC7 = .ok { cexC7 with program_counter := 4 } :=
  ⟨by decide, rfl, rfl, rfl⟩

/-- Claim C7, amended: every fetched opcode outside the spec's recognized set
and not of the form `0x5xyn` yields the fatal UnimplementedOpcode panic
carrying the offending opcode, with all 16 registers unchanged, and the run
loop terminates in that panic for any remaining fuel. -/
theorem c7_unrecognized_amended (s : CPU)
    (hpc : s.program_counter + 1 < 4096)
    (hrec : ¬ SpecRecognized (opcodeAt s))
    (h5 : ¬(0x5000 ≤ opcodeAt s ∧ opcodeAt s ≤ 0x5FFF)) :
    step s = .panic (.unimplemented (opcodeAt s))
      { s with program_counter := s.program_counter + 2 } ∧
    (step s).cpu.registers = s.registers ∧
    (∀ fuel, run (fuel + 1) s =
      .panicked (.unimplemented (opcodeAt s))
        { s with program_counter := s.program_counter + 2 }) := by
  have hstep : step s = .panic (.unimplemented (opcodeAt s))
      { s with program_counter := s.program_counter + 2 } := by
    rw [step_fetch s hpc, decode_unimpl _ _ hrec h5]
  refine ⟨hstep, ?_, fun fuel => ?_⟩
  · rw [hstep]
    rfl
  · unfold run
    rw [hstep]

/-- Claim C7, witness: opcode `0xD000` (draw sprite) panics as
UnimplementedOpcode with registers untouched, and the run terminates. -/
theorem c7_unrecognized_witness :
    step witC7 = .panic (.unimplemented (opcodeAt witC7))
      { witC7 with program_counter := 0 + 2 } ∧
    run 1 witC7 = .panicked (.unimplemented (opcodeAt witC7))
      { witC7 with program_counter := 0 + 2 } := by
  have h := c7_unrecognized_amended witC7 (by decide) (by decide) (by decide)
  exact ⟨h.1, h.2.2 0⟩

end Chip8

namespace Chip8

/-! ### Call/Return round trip (C8) -/

theorem step2_ok (s t : CPU) (h : step s = .ok t) : step2 s = step t := by
  unfold step2
  rw [h]

/-- The state after a successful `call` step: return address `p + 2` pushed
(truncated to `u16`), stack pointer incremented, program counter at the call
target. -/
def callResult (s : CPU) (h : s.stack_pointer < 16) : CPU :=
  { s with
    stack := updFn s.stack ⟨s.stack_pointer, h⟩ ((s.program_counter + 2) % 65536),
    stack_pointer := s.stack_pointer + 1,
    program_counter := opcodeAt s &&& 0x0FFF }

theorem step_call_ok (s : CPU) (hpc : s.program_counter + 1 < 4096)
    (h1 : 0x2000 ≤ opcodeAt s) (h2 : opcodeAt s ≤ 0x2FFF)
    (hsp : s.stack_pointer < 16) :
    step s = .ok (callResult s hsp) := by
  rw [step_fetch s hpc, decode_call _ _ h1 h2]
  unfold call callResult
  dsimp only
  rw [if_neg (by omega), dif_pos hsp]

theorem step_ret_ok (t : CPU) (hpc : t.program_counter + 1 < 4096)
    (hop : opcodeAt t = 0x00EE) (h0 : ¬ t.stack_pointer = 0)
    (h16 : t.stack_pointer - 1 < 16) :
    step t = .ok { t with stack_pointer := t.stack_pointer - 1,
                          program_counter := t.stack ⟨t.stack_pointer - 1, h16⟩ } := by
  rw [step_fetch t hpc, decode_ret _ _ hop]
  unfold ret
  dsimp only
  rw [if_neg h0, dif_pos h16]

/-- Claim C8: from any state with a free stack slot whose fetched opcode is a
`Call` and whose call target holds the bytes `0x00 0xEE` (a `Return`),
executing the call step and then the return step lands back at `p + 2` — the
program counter the Call's own fetch advance produced, i.e. the instruction
after the call — with the stack pointer restored to its pre-call value. -/
theorem c8_call_return_roundtrip (s : CPU)
    (hpc : s.program_counter + 1 < 4096)
    (h1 : 0x2000 ≤ opcodeAt s) (h2 : opcodeAt s ≤ 0x2FFF)
    (hsp : s.stack_pointer < 16)
    (haddr : (opcodeAt s &&& 0x0FFF) + 1 < 4096)
    (hm1 : s.memory (opcodeAt s &&& 0x0FFF) = 0x00)
    (hm2 : s.memory ((opcodeAt s &&& 0x0FFF) + 1) = 0xEE) :
    (step2 s).isOk = true ∧
    (step2 s).cpu.program_counter = s.program_counter + 2 ∧
    (step2 s).cpu.stack_pointer = s.stack_pointer := by
  rw [step2_ok s (callResult s hsp) (step_call_ok s hpc h1 h2 hsp)]
  have hpc1 : (callResult s hsp).program_counter + 1 < 4096 := haddr
  have hop1 : opcodeAt (callResult s hsp) = 0x00EE := by
    show s.memory (opcodeAt s &&& 0x0FFF) <<< 8 |||
      s.memory ((opcodeAt s &&& 0x0FFF) + 1) = 0x00EE
    rw [hm1, hm2]
    decide
  have h0 : ¬ (callResult s hsp).stack_pointer = 0 := by
    show ¬ s.stack_pointer + 1 = 0
    omega
  have h16 : (callResult s hsp).stack_pointer - 1 < 16 := by
    show s.stack_pointer + 1 - 1 < 16
    omega
  rw [step_ret_ok (callResult s hsp) hpc1 hop1 h0 h16]
  refine ⟨rfl, ?_, ?_⟩
  · show (callResult s hsp).stack ⟨(callResult s hsp).stack_pointer - 1, h16⟩ =
      s.program_counter + 2
    have hidx : (⟨(callResult s hsp).stack_pointer - 1, h16⟩ : Fin 16) =
        ⟨s.stack_pointer, hsp⟩ := by
      apply Fin.ext
      show s.stack_pointer + 1 - 1 = s.stack_pointer
      omega
    show updFn s.stack ⟨s.stack_pointer, hsp⟩ ((s.program_counter + 2) % 65536)
      ⟨(callResult s hsp).stack_pointer - 1, h16⟩ = s.program_counter + 2
    rw [hidx, updFn_same, Nat.mod_eq_of_lt (by omega)]
  · show (callResult s hsp).stack_pointer - 1 = s.stack_pointer
    show s.stack_pointer + 1 - 1 = s.stack_pointer
    omega

/-- Program with `Call(0x100)` at address 0; the bytes at 0x100 are `0x00 0xEE`
(a `Return`). -/
def witC8 : CPU :=
  { initCPU with
    memory := updFn (updFn (updFn (updFn zeroMem 0 0x21) 1 0x00) 0x100 0x00)
      0x101 0xEE }

/-- Claim C8, witness: the round trip at the concrete state `witC8` ends at
`program_counter = 2` with `stack_pointer = 0`. -/
theorem c8_call_return_roundtrip_witness :
    (step2 witC8).isOk = true ∧
    (step2 witC8).cpu.program_counter = 2 ∧
    (step2 witC8).cpu.stack_pointer = 0 := by
  have h := c8_call_return_roundtrip witC8 (by decide) (by decide) (by decide)
    (by decide) (by decide) (by decide) (by decide)
  exact ⟨h.1, h.2.1, h.2.2⟩

/-! ### End-to-end scenario (C9) -/

/-- Claim C9: running the engine on the exact state `main` builds — the
two calls to the `AddRegisters(0,1); AddRegisters(0,1); Return` sub-routine
at 0x100 followed by `Halt`, starting from `registers[0] = 5`,
`registers[1] = 10`, `program_counter = 0` — terminates in the Halted state
(via opcode `0x0000`; 16 fuel more than covers the 9 executed instructions)
with `registers[0] = 45`. -/
theorem c9_end_to_end :
    (run 16 mainCPU).isHalted = true ∧ (run 16 mainCPU).registersOf 0 = 45 :=
  ⟨rfl, rfl⟩

end Chip8

namespace Chip8

/-! ### Frame effects (C10) -/

theorem se_xkk_frame (x : Fin 16) (kk : Nat) (t : CPU) :
    (se_xkk x kk t).memory = t.memory ∧ (se_xkk x kk t).stack = t.stack ∧
    (se_xkk x kk t).stack_pointer = t.stack_pointer := by
  unfold se_xkk
  split <;> exact ⟨rfl, rfl, rfl⟩

theorem sne_frame (vx kk : Nat) (t : CPU) :
    (sne vx kk t).memory = t.memory ∧ (sne vx kk t).stack = t.stack ∧
    (sne vx kk t).stack_pointer = t.stack_pointer := by
  unfold sne
  split <;> exact ⟨rfl, rfl, rfl⟩

theorem se_xy_frame (x y : Fin 16) (t : CPU) :
    (se_xy x y t).memory = t.memory ∧ (se_xy x y t).stack = t.stack ∧
    (se_xy x y t).stack_pointer = t.stack_pointer := by
  unfold se_xy
  split <;> exact ⟨rfl, rfl, rfl⟩

theorem decode_halt (op : Nat) (t : CPU) (h : op = 0x0000) :
    decodeExec op t = .halt t := by
  subst h
  rfl

theorem decode_clrscr (op : Nat) (t : CPU) (h : op = 0x00E0) :
    decodeExec op t = .ok t := by
  subst h
  rfl

theorem decode_jump (op : Nat) (t : CPU) (h1 : 0x1000 ≤ op) (h2 : op ≤ 0x1FFF) :
    decodeExec op t = .ok (jump (op &&& 0x0FFF) t) := by
  unfold decodeExec
  repeat rw [if_neg (by omega)]
  rw [if_pos (by omega)]

theorem decode_set6 (op : Nat) (t : CPU) (h1 : 0x6000 ≤ op) (h2 : op ≤ 0x6FFF) :
    decodeExec op t = .ok (set (xOf op) (op &&& 0x00FF) t) := by
  unfold decodeExec
  repeat rw [if_neg (by omega)]
  rw [if_pos (by omega)]

theorem decode_add7 (op : Nat) (t : CPU) (h1 : 0x7000 ≤ op) (h2 : op ≤ 0x7FFF) :
    decodeExec op t = add (xOf op) (op &&& 0x00FF) t := by
  unfold decodeExec
  repeat rw [if_neg (by omega)]
  rw [if_pos (by omega)]

theorem decode_8fam (op : Nat) (t : CPU) (h1 : 0x8000 ≤ op) (h2 : op ≤ 0x8FFF) :
    decodeExec op t =
      (if op &&& 0x000F = 0 then .ok (set (xOf op) (t.registers (yOf op)) t)
       else if op &&& 0x000F = 1 then .ok (or_xy (xOf op) (yOf op) t)
       else if op &&& 0x000F = 2 then .ok (and_xy (xOf op) (yOf op) t)
       else if op &&& 0x000F = 3 then .ok (xor_xy (xOf op) (yOf op) t)
       else if op &&& 0x000F = 4 then .ok (add_xy (xOf op) (yOf op) t)
       else .panic (.unimplemented op) t) := by
  unfold decodeExec
  repeat rw [if_neg (by omega)]
  rw [if_pos (by omega)]

theorem decode_fallthrough (op : Nat) (t : CPU)
    (e0 : ¬ op = 0x0000) (eE0 : ¬ op = 0x00E0) (eEE : ¬ op = 0x00EE)
    (e1 : ¬(0x1000 ≤ op ∧ op ≤ 0x1FFF)) (e2 : ¬(0x2000 ≤ op ∧ op ≤ 0x2FFF))
    (e3 : ¬(0x3000 ≤ op ∧ op ≤ 0x3FFF)) (e4 : ¬(0x4000 ≤ op ∧ op ≤ 0x4FFF))
    (e5 : ¬(0x5000 ≤ op ∧ op ≤ 0x5FFF)) (e6 : ¬(0x6000 ≤ op ∧ op ≤ 0x6FFF))
    (e7 : ¬(0x7000 ≤ op ∧ op ≤ 0x7FFF)) (e8 : ¬(0x8000 ≤ op ∧ op ≤ 0x8FFF)) :
    decodeExec op t = .panic (.unimplemented op) t := by
  unfold decodeExec
  repeat rw [if_neg (by omega)]

theorem decodeExec_frame (op : Nat) (t s' : CPU)
    (h : decodeExec op t = .ok s' ∨ decodeExec op t = .halt s') :
    s'.memory = t.memory ∧
    (¬(0x2000 ≤ op ∧ op ≤ 0x2FFF) → s'.stack = t.stack) ∧
    (¬(0x2000 ≤ op ∧ op ≤ 0x2FFF) → op ≠ 0x00EE →
      s'.stack_pointer = t.stack_pointer) := by
  rcases h with h | h
  all_goals (
    by_cases e0 : op = 0x0000
    · rw [decode_halt op t e0] at h
      first
        | exact Outcome.noConfusion h
        | (injection h with h2
           subst h2
           exact ⟨rfl, fun _ => rfl, fun _ _ => rfl⟩)
    · by_cases eE0 : op = 0x00E0
      · rw [decode_clrscr op t eE0] at h
        first
          | exact Outcome.noConfusion h
          | (injection h with h2
             subst h2
             exact ⟨rfl, fun _ => rfl, fun _ _ => rfl⟩)
      · by_cases eEE : op = 0x00EE
        · rw [decode_ret op t eEE] at h
          unfold ret at h
          repeat' split at h
          all_goals first
            | exact Outcome.noConfusion h
            | (injection h with h2
               subst h2
               exact ⟨rfl, fun _ => rfl, fun hn hr => absurd eEE hr⟩)
        · by_cases e1 : 0x1000 ≤ op ∧ op ≤ 0x1FFF
          · rw [decode_jump op t e1.1 e1.2] at h
            first
              | exact Outcome.noConfusion h
              | (injection h with h2
                 subst h2
                 exact ⟨rfl, fun _ => rfl, fun _ _ => rfl⟩)
          · by_cases e2 : 0x2000 ≤ op ∧ op ≤ 0x2FFF
            · rw [decode_call op t e2.1 e2.2] at h
              unfold call at h
              repeat' split at h
              all_goals first
                | exact Outcome.noConfusion h
                | (injection h with h2
                   subst h2
                   exact ⟨rfl, fun hn => absurd e2 hn, fun hn _ => absurd e2 hn⟩)
            · by_cases e3 : 0x3000 ≤ op ∧ op ≤ 0x3FFF
              · rw [decode_se_xkk op t e3.1 e3.2] at h
                first
                  | exact Outcome.noConfusion h
                  | (injection h with h2
                     subst h2
                     exact ⟨(se_xkk_frame _ _ _).1, fun _ => (se_xkk_frame _ _ _).2.1,
                            fun _ _ => (se_xkk_frame _ _ _).2.2⟩)
              · by_cases e4 : 0x4000 ≤ op ∧ op ≤ 0x4FFF
                · rw [decode_sne op t e4.1 e4.2] at h
                  first
                    | exact Outcome.noConfusion h
                    | (injection h with h2
                       subst h2
                       exact ⟨(sne_frame _ _ _).1, fun _ => (sne_frame _ _ _).2.1,
                              fun _ _ => (sne_frame _ _ _).2.2⟩)
                · by_cases e5 : 0x5000 ≤ op ∧ op ≤ 0x5FFF
                  · rw [decode_se_xy op t e5.1 e5.2] at h
                    first
                      | exact Outcome.noConfusion h
                      | (injection h with h2
                         subst h2
                         exact ⟨(se_xy_frame _ _ _).1, fun _ => (se_xy_frame _ _ _).2.1,
                                fun _ _ => (se_xy_frame _ _ _).2.2⟩)
                  · by_cases e6 : 0x6000 ≤ op ∧ op ≤ 0x6FFF
                    · rw [decode_set6 op t e6.1 e6.2] at h
                      first
                        | exact Outcome.noConfusion h
                        | (injection h with h2
                           subst h2
                           exact ⟨rfl, fun _ => rfl, fun _ _ => rfl⟩)
                    · by_cases e7 : 0x7000 ≤ op ∧ op ≤ 0x7FFF
                      · rw [decode_add7 op t e7.1 e7.2] at h
                        unfold add at h
                        repeat' split at h
                        all_goals first
                          | exact Outcome.noConfusion h
                          | (injection h with h2
                             subst h2
                             exact ⟨rfl, fun _ => rfl, fun _ _ => rfl⟩)
                      · by_cases e8 : 0x8000 ≤ op ∧ op ≤ 0x8FFF
                        · rw [decode_8fam op t e8.1 e8.2] at h
                          repeat' split at h
                          all_goals first
                            | exact Outcome.noConfusion h
                            | (injection h with h2
                               subst h2
                               exact ⟨rfl, fun _ => rfl, fun _ _ => rfl⟩)
                        · rw [decode_fallthrough op t e0 eE0 eEE e1 e2 e3 e4
                            e5 e6 e7 e8] at h
                          exact Outcome.noConfusion h)

/-- Claim C10: any step that loops or halts leaves `memory` unchanged; if the
fetched opcode is not a `Call` it also leaves the `stack` contents unchanged,
and if it is neither a `Call` nor a `Return` it leaves the `stack_pointer`
unchanged — so only `Call` writes the stack, and only `Call`/`Return` move
the stack pointer, and no instruction writes memory. -/
theorem c10_frame (s s' : CPU)
    (h : step s = .ok s' ∨ step s = .halt s') :
    s'.memory = s.memory ∧
    (¬(0x2000 ≤ opcodeAt s ∧ opcodeAt s ≤ 0x2FFF) → s'.stack = s.stack) ∧
    (¬(0x2000 ≤ opcodeAt s ∧ opcodeAt s ≤ 0x2FFF) → opcodeAt s ≠ 0x00EE →
      s'.stack_pointer = s.stack_pointer) := by
  by_cases hpc : s.program_counter + 1 < 4096
  · rw [step_fetch s hpc] at h
    exact decodeExec_frame (opcodeAt s)
      { s with program_counter := s.program_counter + 2 } s' h
  · rw [step_fetch_oob s hpc] at h
    rcases h with h | h <;> exact Outcome.noConfusion h

/-- Opcode `0x6A42` (LoadImmediate x=10 kk=0x42) at address 0. -/
def witC10 : CPU := { initCPU with memory := updFn (updFn zeroMem 0 0x6A) 1 0x42 }

/-- The state `step witC10` reaches: `r10 = 0x42`, `program_counter = 2`. -/
def witC10r : CPU :=
  { witC10 with program_counter := 2, registers := updFn zeroRegs 10 0x42 }

/-- Claim C10, witness: a LoadImmediate step leaves memory, stack and stack
pointer untouched. -/
theorem c10_frame_witness :
    witC10r.memory = witC10.memory ∧ witC10r.stack = witC10.stack ∧
    witC10r.stack_pointer = witC10.stack_pointer := by
  have h := c10_frame witC10 witC10r (Or.inl rfl)
  exact ⟨h.1, h.2.1 (by decide), h.2.2 (by decide) (by decide)⟩

end Chip8
